import Mathlib

/-!
Verification of the dual-timeline synchronization component of the
wcl-vod-review repository.  The definitions below are shallow embeddings of
the timeline components: machine floating-point numbers are modelled as exact
rationals (`ℚ`), React `useState` cells become fields of explicit state
records, and event handlers become pure state-transition functions returning
the updated state together with the callback they fire.

The main subject is the extended `SuperTimeline` component
(`src/unnamed/part_001`), which owns the time-domain mapper (`timeToX` /
`xToTime`), the tick-spacing rule (`calculateTimeStep`), the wheel zoom
handler (`handleWheel`), the fit-to-report initialization, the sync
(offset-model) state and its mouse handlers, and the canvas draw routine.
The `TimelineAligner` component (`src/frontend/src/components/TimelineAligner.tsx`)
is embedded separately for its degenerate-duration guard; there JavaScript
numbers are modelled by `JsNum`, which distinguishes finite values from
`NaN`/`±Infinity` so that the `isFinite` guard is meaningful.
-/

namespace SuperTimeline

/-- Constants of `src/unnamed/part_001`, lines 39-50. -/
def SYNC_ROW_HEIGHT : ℚ := 30

/-- Height of the fights row (line 40). -/
def FIGHT_ROW_HEIGHT : ℚ := 40

/-- Height of each event row (line 41). -/
def EVENT_ROW_HEIGHT : ℚ := 40

/-- Vertical space reserved for time labels (line 46). -/
def PADDING_TOP : ℚ := 60

/-- Minimum zoom, in pixels per second (line 48, `0.1`). -/
def MIN_ZOOM : ℚ := 1 / 10

/-- Maximum zoom, in pixels per second (line 49). -/
def MAX_ZOOM : ℚ := 50

/-- Extra seconds of padding at each edge when fully zoomed out (line 50). -/
def EDGE_PADDING_SEC : ℚ := 60

/-- Time-domain mapper, seconds to pixels (`timeToX`, lines 186-191). -/
def timeToX (zoom panOffset timeInSeconds : ℚ) : ℚ :=
  timeInSeconds * zoom - panOffset

/-- Time-domain mapper, pixels to seconds (`xToTime`, lines 194-199). -/
def xToTime (zoom panOffset x : ℚ) : ℚ :=
  (x + panOffset) / zoom

/-- Tick-spacing rule (`calculateTimeStep`, lines 495-505). -/
def calculateTimeStep (currentZoom : ℚ) : ℚ :=
  let minPixelsBetweenMarkers : ℚ := 100
  let secondsPerMarker := minPixelsBetweenMarkers / currentZoom
  if secondsPerMarker ≤ 10 then 10
  else if secondsPerMarker ≤ 30 then 30
  else if secondsPerMarker ≤ 60 then 60
  else if secondsPerMarker ≤ 120 then 120
  else if secondsPerMarker ≤ 300 then 300
  else 600

/-- The ordered candidate set of tick steps named by the spec (section 4.1). -/
def tickCandidates : List ℚ := [10, 30, 60, 120, 300, 600]

/-- Modelled from the spec's words (section 4.1), for comparison with
`calculateTimeStep`: the smallest step in the ordered candidate set with
`step * zoom >= 100` pixels, and the largest candidate (600) when none
satisfies it. -/
def specTimeStep (zoom : ℚ) : ℚ :=
  (tickCandidates.find? (fun step => decide (100 ≤ step * zoom))).getD 600

/-- View state of the timeline: `zoom` (pixels per second, line 71) and
`panOffset` (pixels from the left, line 72). -/
structure ViewState where
  zoom : ℚ
  panOffset : ℚ
  deriving DecidableEq

/-- The clamped new zoom computed by `handleWheel` (lines 524-531): the
multiplicative zoom (factor 1.1 on wheel-in, 0.9 on wheel-out) clamped to
`MAX_ZOOM` from above and floored by both `MIN_ZOOM` and the fit-to-report
zoom `containerWidth / (reportDuration + 2 * EDGE_PADDING_SEC)`. -/
def wheelNewZoom (containerClientWidth reportDuration : ℚ) (deltaYPos : Bool)
    (zoom : ℚ) : ℚ :=
  let zoomFactor : ℚ := if deltaYPos then 9 / 10 else 11 / 10
  let containerWidth := containerClientWidth - 40
  let totalDurationWithPadding := reportDuration + EDGE_PADDING_SEC * 2
  let minZoomForReport := containerWidth / totalDurationWithPadding
  max (max MIN_ZOOM minZoomForReport) (min (zoom * zoomFactor) MAX_ZOOM)

/-- Wheel handler (`handleWheel`, lines 513-541): computes the time under the
mouse, the clamped new zoom, and the pan adjustment that keeps the mouse
position steady. -/
def handleWheel (containerClientWidth reportDuration : ℚ) (deltaYPos : Bool)
    (mouseX : ℚ) (s : ViewState) : ViewState :=
  let timeAtMouse := xToTime s.zoom s.panOffset mouseX
  let newZoom := wheelNewZoom containerClientWidth reportDuration deltaYPos s.zoom
  let newMouseX := timeAtMouse * newZoom - s.panOffset
  let panAdjustment := newMouseX - mouseX
  { zoom := newZoom, panOffset := s.panOffset + panAdjustment }

/-- Fit-to-report initialization (`useEffect`, lines 143-153): zoom fits the
report duration plus edge padding into the container width, clamped to
`[MIN_ZOOM, MAX_ZOOM]`; the pan centers the padded span. -/
def initializeZoomFit (containerClientWidth reportDuration : ℚ) : ViewState :=
  let containerWidth := containerClientWidth - 40
  let totalDurationWithPadding := reportDuration + EDGE_PADDING_SEC * 2
  let initialZoom := max MIN_ZOOM (min (containerWidth / totalDurationWithPadding) MAX_ZOOM)
  { zoom := initialZoom, panOffset := -EDGE_PADDING_SEC * initialZoom }

theorem wheelNewZoom_pos (ccw rd : ℚ) (d : Bool) (z : ℚ) :
    0 < wheelNewZoom ccw rd d z := by
  have h1 : MIN_ZOOM ≤ wheelNewZoom ccw rd d z :=
    (le_max_left _ _).trans (le_max_left _ _)
  have h0 : (0 : ℚ) < MIN_ZOOM := by norm_num [MIN_ZOOM]
  exact h0.trans_le h1

/-- Claim C4: for every zoom in `[MIN_ZOOM, MAX_ZOOM]`, every pan, and every
time `t`, converting `t` to a pixel with `timeToX` and back with `xToTime`
yields `t` again, to within `1e-9` (here: exactly, since the arithmetic is
over exact rationals). -/
theorem roundTrip_c4 (zoom panOffset t : ℚ)
    (h1 : MIN_ZOOM ≤ zoom) (h2 : zoom ≤ MAX_ZOOM) :
    |xToTime zoom panOffset (timeToX zoom panOffset t) - t| ≤ 1 / 1000000000 := by
  have hz : zoom ≠ 0 := by
    have : (0 : ℚ) < zoom := lt_of_lt_of_le (by norm_num [MIN_ZOOM]) h1
    exact ne_of_gt this
  have hexact : xToTime zoom panOffset (timeToX zoom panOffset t) = t := by
    simp only [xToTime, timeToX]
    field_simp
  rw [hexact]
  simp

theorem roundTrip_c4_witness :
    MIN_ZOOM ≤ (1 : ℚ) ∧ (1 : ℚ) ≤ MAX_ZOOM ∧
      |xToTime 1 5 (timeToX 1 5 3) - 3| ≤ 1 / 1000000000 :=
  ⟨by norm_num [MIN_ZOOM], by norm_num [MAX_ZOOM],
    roundTrip_c4 1 5 3 (by norm_num [MIN_ZOOM]) (by norm_num [MAX_ZOOM])⟩

/-- Claim C5: for every wheel event at pixel `mouseX` with current view state,
the handler produces a new view state whose zoom is the multiplicative zoom
clamped to `[MIN_ZOOM, MAX_ZOOM]` and floored by the fit-to-report zoom, and
which preserves the time under the pointer to within `1e-9` (exactly, over
rationals). -/
theorem pointerAnchoredZoom_c5 (ccw rd mouseX : ℚ) (d : Bool) (s : ViewState)
    (h : 0 < s.zoom) :
    (handleWheel ccw rd d mouseX s).zoom = wheelNewZoom ccw rd d s.zoom ∧
    |xToTime (handleWheel ccw rd d mouseX s).zoom
        (handleWheel ccw rd d mouseX s).panOffset mouseX
      - xToTime s.zoom s.panOffset mouseX| ≤ 1 / 1000000000 := by
  refine ⟨rfl, ?_⟩
  have hz : s.zoom ≠ 0 := ne_of_gt h
  have hnz : wheelNewZoom ccw rd d s.zoom ≠ 0 := ne_of_gt (wheelNewZoom_pos ccw rd d s.zoom)
  have hexact : xToTime (handleWheel ccw rd d mouseX s).zoom
      (handleWheel ccw rd d mouseX s).panOffset mouseX
      = xToTime s.zoom s.panOffset mouseX := by
    simp only [handleWheel, xToTime]
    field_simp
    ring
  rw [hexact]
  simp

theorem pointerAnchoredZoom_c5_witness :
    (0 : ℚ) < 1 ∧
      |xToTime (handleWheel 140 600 false 10 ⟨1, 0⟩).zoom
          (handleWheel 140 600 false 10 ⟨1, 0⟩).panOffset 10
        - xToTime 1 0 10| ≤ 1 / 1000000000 :=
  ⟨by norm_num, (pointerAnchoredZoom_c5 140 600 10 false ⟨1, 0⟩ (by norm_num)).2⟩

/-- Claim C6: for every zoom greater than zero, `calculateTimeStep` returns the
smallest step in the ordered candidate set {10, 30, 60, 120, 300, 600} with
`step * zoom >= 100` pixels, and 600 when no candidate satisfies it (the
spec-side selection is `specTimeStep`). -/
theorem calculateTimeStep_c6 (zoom : ℚ) (h : 0 < zoom) :
    calculateTimeStep zoom = specTimeStep zoom := by
  have key : ∀ c : ℚ, (100 / zoom ≤ c ↔ 100 ≤ c * zoom) := fun c => div_le_iff₀ h
  simp only [calculateTimeStep, specTimeStep, tickCandidates, List.find?, key]
  by_cases h10 : (100 : ℚ) ≤ 10 * zoom <;>
  by_cases h30 : (100 : ℚ) ≤ 30 * zoom <;>
  by_cases h60 : (100 : ℚ) ≤ 60 * zoom <;>
  by_cases h120 : (100 : ℚ) ≤ 120 * zoom <;>
  by_cases h300 : (100 : ℚ) ≤ 300 * zoom <;>
  by_cases h600 : (100 : ℚ) ≤ 600 * zoom <;>
  simp [h10, h30, h60, h120, h300, h600]

theorem calculateTimeStep_c6_witness :
    (0 : ℚ) < 1 ∧ calculateTimeStep 1 = specTimeStep 1 :=
  ⟨by norm_num, calculateTimeStep_c6 1 (by norm_num)⟩

/-- Claim C7: the initial-fit computation sets zoom to the effective viewport
width (container client width minus 40px of padding) divided by the report
duration plus 60s of edge padding on each side, clamped to
`[MIN_ZOOM, MAX_ZOOM]`, and sets pan so the left edge of the padded span lands
at pixel 0.  In particular, for report duration 600s and effective viewport
width 720px (client width 760px) the zoom is exactly 1 px/s, the pan is -60,
and the padded span [-60s, 660s] maps to exactly [0px, 720px]. -/
theorem initialFit_c7 (cw rd : ℚ) :
    (initializeZoomFit cw rd).zoom
        = max MIN_ZOOM (min ((cw - 40) / (rd + EDGE_PADDING_SEC * 2)) MAX_ZOOM) ∧
    timeToX (initializeZoomFit cw rd).zoom (initializeZoomFit cw rd).panOffset
        (-EDGE_PADDING_SEC) = 0 ∧
    (initializeZoomFit 760 600).zoom = 1 ∧
    (initializeZoomFit 760 600).panOffset = -60 ∧
    timeToX (initializeZoomFit 760 600).zoom (initializeZoomFit 760 600).panOffset
        (600 + EDGE_PADDING_SEC) = 720 := by
  refine ⟨rfl, ?_, ?_, ?_, ?_⟩
  · simp only [initializeZoomFit, timeToX]
    ring
  · simp only [initializeZoomFit]
    norm_num [MIN_ZOOM, MAX_ZOOM, EDGE_PADDING_SEC]
  · simp only [initializeZoomFit]
    norm_num [MIN_ZOOM, MAX_ZOOM, EDGE_PADDING_SEC]
  · simp only [initializeZoomFit, timeToX]
    norm_num [MIN_ZOOM, MAX_ZOOM, EDGE_PADDING_SEC]

/-- Claim C10 (implicit): a wheel event whose clamped new zoom equals the
current zoom also leaves the pan unchanged, because the pan adjustment
`timeAtMouse * newZoom - panOffset - mouseX` is exactly zero when
`newZoom = zoom`; thus a saturated wheel event is a no-op on the view state. -/
theorem saturatedWheelNoOp_c10 (ccw rd mouseX : ℚ) (d : Bool) (s : ViewState)
    (h : 0 < s.zoom) (hsat : wheelNewZoom ccw rd d s.zoom = s.zoom) :
    handleWheel ccw rd d mouseX s = s := by
  obtain ⟨z, p⟩ := s
  have hz : z ≠ 0 := by
    simpa using ne_of_gt h
  simp only [handleWheel, xToTime] at *
  rw [hsat]
  simp only [ViewState.mk.injEq]
  constructor
  · trivial
  · field_simp

theorem saturatedWheelNoOp_c10_witness :
    (0 : ℚ) < 50 ∧ wheelNewZoom 140 600 false 50 = 50 ∧
      handleWheel 140 600 false 10 ⟨50, 0⟩ = ⟨50, 0⟩ :=
  ⟨by norm_num,
    by norm_num [wheelNewZoom, MIN_ZOOM, MAX_ZOOM, EDGE_PADDING_SEC],
    saturatedWheelNoOp_c10 140 600 10 false ⟨50, 0⟩ (by norm_num)
      (by norm_num [wheelNewZoom, MIN_ZOOM, MAX_ZOOM, EDGE_PADDING_SEC])⟩

/-- Fight record (lines 5-12); times are milliseconds from report start. -/
structure Fight where
  id : ℤ
  name : String
  startTime : ℚ
  endTime : ℚ
  kill : Bool
  iconUrl : Option String
  deriving DecidableEq

/-- Discriminated event kind (line 16). -/
inductive EventType where
  | Deaths
  | Casts
  deriving DecidableEq

/-- Ability descriptor (lines 17-21). -/
structure Ability where
  name : String
  guid : ℤ
  type : ℤ
  deriving DecidableEq

/-- Event record (lines 14-22); timestamp in milliseconds from report start. -/
structure Event where
  timestamp : ℚ
  type : EventType
  ability : Option Ability
  deriving DecidableEq

/-- Component props relevant to the handlers (lines 24-37).  `offset` is the
stored video/log offset in seconds, `videoDuration` is in seconds, the two
report times and `videoStartTime` are wall-clock milliseconds. -/
structure TimelineProps where
  reportStartTime : ℚ
  reportEndTime : ℚ
  fights : List Fight
  selectedFightId : Option ℤ
  events : List Event
  offset : ℚ
  videoDuration : ℚ
  videoStartTime : ℚ
  deriving DecidableEq

/-- Report duration in seconds (line 85). -/
def reportDuration (p : TimelineProps) : ℚ :=
  (p.reportEndTime - p.reportStartTime) / 1000

/-- Which sync anchor bar is being dragged (line 82). -/
inductive SyncBar where
  | video
  | wcl
  deriving DecidableEq

/-- Mutable component state: the `useState` cells of lines 71-83. -/
structure TimelineState where
  zoom : ℚ
  panOffset : ℚ
  isDragging : Bool
  dragStartX : ℚ
  dragStartPanOffset : ℚ
  hoveredFight : Option Fight
  hoveredEvent : Option (Event × ℚ × ℚ)
  videoOffsetSec : ℚ
  wclOffsetSec : ℚ
  isLocked : Bool
  isDraggingSync : Option SyncBar
  autoSynced : Bool
  deriving DecidableEq

/-- Callbacks a pointer-down can fire: `onFightSelect` or `onTimelineClick`
(the seek request). -/
inductive Callback where
  | fightSelect (id : ℤ)
  | timelineClick (timeInSeconds : ℚ)
  deriving DecidableEq

/-- Row boundaries used by the hit tests (lines 556-559 and 585-586). -/
def videoRowTop : ℚ := PADDING_TOP

/-- Bottom of the video sync row. -/
def videoRowBottom : ℚ := PADDING_TOP + SYNC_ROW_HEIGHT

/-- Top of the WCL sync row. -/
def wclRowTop : ℚ := PADDING_TOP + SYNC_ROW_HEIGHT

/-- Bottom of the WCL sync row. -/
def wclRowBottom : ℚ := PADDING_TOP + SYNC_ROW_HEIGHT + SYNC_ROW_HEIGHT

/-- Top of the fights row. -/
def fightsRowTop : ℚ := PADDING_TOP + SYNC_ROW_HEIGHT * 2

/-- Bottom of the fights row. -/
def fightsRowBottom : ℚ := PADDING_TOP + SYNC_ROW_HEIGHT * 2 + FIGHT_ROW_HEIGHT

/-- Row y of an event marker by kind (lines 610-611 and 437-438). -/
def eventRowY : EventType → ℚ
  | .Casts => PADDING_TOP + SYNC_ROW_HEIGHT * 2 + FIGHT_ROW_HEIGHT + 10
  | .Deaths => PADDING_TOP + SYNC_ROW_HEIGHT * 2 + FIGHT_ROW_HEIGHT + EVENT_ROW_HEIGHT + 10

/-- Pixel x of an event marker, positioned relative to the WCL bar
(line 609). -/
def eventMarkerX (s : TimelineState) (ev : Event) : ℚ :=
  timeToX s.zoom s.panOffset (ev.timestamp / 1000 + s.wclOffsetSec)

/-- Hit test against an event marker (lines 613-614).  The source compares
`Math.sqrt(dx^2 + dy^2) <= 6`; over nonnegative values this is equivalent to
`dx^2 + dy^2 <= 36`, which avoids square roots over `ℚ`. -/
def eventHit (s : TimelineState) (x y : ℚ) (ev : Event) : Bool :=
  decide ((x - eventMarkerX s ev) ^ 2 + (y - (eventRowY ev.type + 10)) ^ 2 ≤ 36)

/-- First event within the 6px hit radius, in dataset order (lines 606-621). -/
def findHitEvent (p : TimelineProps) (s : TimelineState) (x y : ℚ) : Option Event :=
  p.events.find? (eventHit s x y)

/-- First fight whose span contains the given time, in dataset order
(lines 589-594). -/
def findClickedFight (p : TimelineProps) (s : TimelineState) (clickTime : ℚ) :
    Option Fight :=
  p.fights.find? (fun f =>
    decide (f.startTime / 1000 + s.wclOffsetSec ≤ clickTime ∧
      clickTime ≤ f.endTime / 1000 + s.wclOffsetSec))

/-- The selected fight looked up among the fights (lines 604-605). -/
def selectedFight (p : TimelineProps) : Option Fight :=
  match p.selectedFightId with
  | none => none
  | some fid => p.fights.find? (fun f => decide (f.id = fid))

/-- Pointer-down handler (`handleMouseDown`, lines 544-646), linearized from
the source's early returns into a priority chain: (1) video anchor bar,
(2) WCL anchor bar — both only when unlocked —, (3) fight bars, (4) event
markers (seek request `eventTimeSec - offset`, line 617), (5) start a canvas
pan drag.  Returns the updated state and the callback fired, if any. -/
def handleMouseDown (p : TimelineProps) (s : TimelineState) (clientX x y : ℚ) :
    TimelineState × Option Callback :=
  if s.isLocked = false ∧ videoRowTop ≤ y ∧ y ≤ videoRowBottom ∧
      timeToX s.zoom s.panOffset s.videoOffsetSec ≤ x ∧
      x ≤ timeToX s.zoom s.panOffset s.videoOffsetSec + p.videoDuration * s.zoom then
    ({ s with
        isDraggingSync := some .video
        dragStartX := clientX
        dragStartPanOffset := s.panOffset }, none)
  else if s.isLocked = false ∧ wclRowTop ≤ y ∧ y ≤ wclRowBottom ∧
      timeToX s.zoom s.panOffset s.wclOffsetSec ≤ x ∧
      x ≤ timeToX s.zoom s.panOffset s.wclOffsetSec + reportDuration p * s.zoom then
    ({ s with
        isDraggingSync := some .wcl
        dragStartX := clientX
        dragStartPanOffset := s.panOffset }, none)
  else
    match (if fightsRowTop ≤ y ∧ y ≤ fightsRowBottom then
        findClickedFight p s (xToTime s.zoom s.panOffset x) else none) with
    | some clickedFight => (s, some (.fightSelect clickedFight.id))
    | none =>
      match (if p.selectedFightId.isSome ∧ 0 < p.events.length ∧ (selectedFight p).isSome
          then findHitEvent p s x y else none) with
      | some ev => (s, some (.timelineClick (ev.timestamp / 1000 - p.offset)))
      | none =>
        ({ s with
            isDragging := true
            dragStartX := clientX
            dragStartPanOffset := s.panOffset }, none)

/-- Pointer-move handler (`handleMouseMove`, lines 649-723): updates hover
state, then applies the active drag (sync anchor drag moves the anchor by
`deltaX / zoom` seconds; pan drag moves the pan by the negative delta). -/
def handleMouseMove (p : TimelineProps) (s : TimelineState) (clientX x y : ℚ) :
    TimelineState :=
  let hoveredFight :=
    if fightsRowTop ≤ y ∧ y ≤ fightsRowBottom then
      findClickedFight p s (xToTime s.zoom s.panOffset x)
    else none
  let hoveredEvent :=
    if p.selectedFightId.isSome ∧ 0 < p.events.length then
      (if (selectedFight p).isSome then
        (findHitEvent p s x y).map (fun ev => (ev, eventMarkerX s ev, eventRowY ev.type))
      else s.hoveredEvent)
    else none
  let s1 := { s with hoveredFight := hoveredFight, hoveredEvent := hoveredEvent }
  match s.isDraggingSync with
  | some .video =>
    { s1 with
        videoOffsetSec := s.videoOffsetSec + (clientX - s.dragStartX) / s.zoom
        dragStartX := clientX }
  | some .wcl =>
    { s1 with
        wclOffsetSec := s.wclOffsetSec + (clientX - s.dragStartX) / s.zoom
        dragStartX := clientX }
  | none =>
    if s.isDragging then
      { s1 with panOffset := s.dragStartPanOffset - (clientX - s.dragStartX) }
    else s1

/-- Initial sync effect (`useEffect`, lines 89-115): runs on data arrival.
Returns the updated state and the offset passed to `onOffsetChange`, when the
callback fires.  The JavaScript truthiness tests on the two timestamps are
modelled as `≠ 0`. -/
def initializeSync (p : TimelineProps) (s : TimelineState) :
    TimelineState × Option ℚ :=
  let s0 := { s with wclOffsetSec := 0 }
  if p.videoStartTime ≠ 0 ∧ p.reportStartTime ≠ 0 ∧ 0 < p.videoDuration then
    let timeDiffSeconds := (p.reportStartTime - p.videoStartTime) / 1000
    let dayInSeconds : ℚ := 24 * 60 * 60
    if |timeDiffSeconds| < dayInSeconds then
      ({ s0 with
          videoOffsetSec := timeDiffSeconds
          isLocked := true
          autoSynced := true }, some timeDiffSeconds)
    else
      ({ s0 with videoOffsetSec := -p.videoDuration - 60 }, none)
  else if 0 < p.videoDuration then
    ({ s0 with videoOffsetSec := -p.videoDuration - 60 }, none)
  else (s0, none)

theorem initializeSync_locked (p : TimelineProps) (s : TimelineState)
    (hc : p.videoStartTime ≠ 0 ∧ p.reportStartTime ≠ 0 ∧ 0 < p.videoDuration)
    (habs : |(p.reportStartTime - p.videoStartTime) / 1000| < 24 * 60 * 60) :
    initializeSync p s =
      ({ s with
          wclOffsetSec := 0
          videoOffsetSec := (p.reportStartTime - p.videoStartTime) / 1000
          isLocked := true
          autoSynced := true },
        some ((p.reportStartTime - p.videoStartTime) / 1000)) := by
  simp only [initializeSync]
  rw [if_pos hc, if_pos habs]

theorem initializeSync_unlocked (p : TimelineProps) (s : TimelineState)
    (hc : p.videoStartTime ≠ 0 ∧ p.reportStartTime ≠ 0 ∧ 0 < p.videoDuration)
    (habs : ¬|(p.reportStartTime - p.videoStartTime) / 1000| < 24 * 60 * 60) :
    initializeSync p s =
      ({ s with
          wclOffsetSec := 0
          videoOffsetSec := -p.videoDuration - 60 }, none) := by
  simp only [initializeSync]
  rw [if_pos hc, if_neg habs]

/-- Claim C2: on initial data arrival with both wall-clock start timestamps
known (nonzero) and a positive video duration, a timestamp difference of
exactly 86399s (in either direction) puts the offset model in the Locked
state marked auto-synced with offset `logStart - videoStart` seconds and
fires the offset callback with that value, while a difference of exactly
86401s leaves it Unlocked (the initial state) with the video anchor at the
default non-overlapping position `-videoDuration - 60` seconds, before the
log anchor at 0, and no callback fired. -/
theorem autoSyncThreshold_c2 (p : TimelineProps) (s : TimelineState)
    (hv : p.videoStartTime ≠ 0) (hd : 0 < p.videoDuration)
    (h1 : p.videoStartTime + 86399000 ≠ 0) (h2 : p.videoStartTime - 86399000 ≠ 0)
    (h3 : p.videoStartTime + 86401000 ≠ 0) (h4 : p.videoStartTime - 86401000 ≠ 0)
    (hlock : s.isLocked = false) :
    ((initializeSync { p with reportStartTime := p.videoStartTime + 86399000 } s).1.isLocked = true ∧
     (initializeSync { p with reportStartTime := p.videoStartTime + 86399000 } s).1.autoSynced = true ∧
     (initializeSync { p with reportStartTime := p.videoStartTime + 86399000 } s).1.videoOffsetSec = 86399 ∧
     (initializeSync { p with reportStartTime := p.videoStartTime + 86399000 } s).1.wclOffsetSec = 0 ∧
     (initializeSync { p with reportStartTime := p.videoStartTime + 86399000 } s).2 = some 86399) ∧
    ((initializeSync { p with reportStartTime := p.videoStartTime - 86399000 } s).1.isLocked = true ∧
     (initializeSync { p with reportStartTime := p.videoStartTime - 86399000 } s).1.autoSynced = true ∧
     (initializeSync { p with reportStartTime := p.videoStartTime - 86399000 } s).1.videoOffsetSec = -86399 ∧
     (initializeSync { p with reportStartTime := p.videoStartTime - 86399000 } s).2 = some (-86399)) ∧
    ((initializeSync { p with reportStartTime := p.videoStartTime + 86401000 } s).1.isLocked = false ∧
     (initializeSync { p with reportStartTime := p.videoStartTime + 86401000 } s).1.videoOffsetSec = -p.videoDuration - 60 ∧
     (initializeSync { p with reportStartTime := p.videoStartTime + 86401000 } s).2 = none) ∧
    ((initializeSync { p with reportStartTime := p.videoStartTime - 86401000 } s).1.isLocked = false ∧
     (initializeSync { p with reportStartTime := p.videoStartTime - 86401000 } s).1.videoOffsetSec = -p.videoDuration - 60 ∧
     (initializeSync { p with reportStartTime := p.videoStartTime - 86401000 } s).2 = none) := by
  have l1 := initializeSync_locked { p with reportStartTime := p.videoStartTime + 86399000 } s
    ⟨hv, h1, hd⟩ (by simp only; norm_num)
  have l2 := initializeSync_locked { p with reportStartTime := p.videoStartTime - 86399000 } s
    ⟨hv, h2, hd⟩ (by simp only; norm_num)
  have l3 := initializeSync_unlocked { p with reportStartTime := p.videoStartTime + 86401000 } s
    ⟨hv, h3, hd⟩ (by simp only; norm_num)
  have l4 := initializeSync_unlocked { p with reportStartTime := p.videoStartTime - 86401000 } s
    ⟨hv, h4, hd⟩ (by simp only; norm_num)
  rw [l1, l2, l3, l4]
  refine ⟨⟨rfl, rfl, by norm_num, rfl, by norm_num⟩,
    ⟨rfl, rfl, by norm_num, by norm_num⟩,
    ⟨hlock, rfl, rfl⟩, ⟨hlock, rfl, rfl⟩⟩

/-- A sample props record used by closed witnesses. -/
def sampleProps : TimelineProps :=
  { reportStartTime := 0
    reportEndTime := 3600000
    fights := []
    selectedFightId := none
    events := []
    offset := 0
    videoDuration := 3600
    videoStartTime := 1000000 }

/-- A sample initial state used by closed witnesses. -/
def sampleState : TimelineState :=
  { zoom := 1
    panOffset := 0
    isDragging := false
    dragStartX := 0
    dragStartPanOffset := 0
    hoveredFight := none
    hoveredEvent := none
    videoOffsetSec := 0
    wclOffsetSec := 0
    isLocked := false
    isDraggingSync := none
    autoSynced := false }

theorem autoSyncThreshold_c2_witness :
    (initializeSync { sampleProps with
        reportStartTime := sampleProps.videoStartTime + 86399000 } sampleState).1.isLocked = true ∧
    (initializeSync { sampleProps with
        reportStartTime := sampleProps.videoStartTime + 86401000 } sampleState).1.isLocked = false :=
  ⟨(autoSyncThreshold_c2 sampleProps sampleState (by norm_num [sampleProps])
      (by norm_num [sampleProps]) (by norm_num [sampleProps]) (by norm_num [sampleProps])
      (by norm_num [sampleProps]) (by norm_num [sampleProps]) (by norm_num [sampleState])).1.1,
   (autoSyncThreshold_c2 sampleProps sampleState (by norm_num [sampleProps])
      (by norm_num [sampleProps]) (by norm_num [sampleProps]) (by norm_num [sampleProps])
      (by norm_num [sampleProps]) (by norm_num [sampleProps]) (by norm_num [sampleState])).2.2.1.1⟩

theorem handleMouseDown_locked_fields (p : TimelineProps) (s : TimelineState)
    (clientX x y : ℚ) (hl : s.isLocked = true) :
    (handleMouseDown p s clientX x y).1.isDraggingSync = s.isDraggingSync ∧
    (handleMouseDown p s clientX x y).1.videoOffsetSec = s.videoOffsetSec ∧
    (handleMouseDown p s clientX x y).1.wclOffsetSec = s.wclOffsetSec := by
  simp only [handleMouseDown]
  rw [if_neg (by simp [hl]), if_neg (by simp [hl])]
  split
  · exact ⟨rfl, rfl, rfl⟩
  · split
    · exact ⟨rfl, rfl, rfl⟩
    · exact ⟨rfl, rfl, rfl⟩

theorem handleMouseMove_noSyncDrag_fields (p : TimelineProps) (s : TimelineState)
    (clientX x y : ℚ) (hd : s.isDraggingSync = none) :
    (handleMouseMove p s clientX x y).isDraggingSync = none ∧
    (handleMouseMove p s clientX x y).videoOffsetSec = s.videoOffsetSec ∧
    (handleMouseMove p s clientX x y).wclOffsetSec = s.wclOffsetSec := by
  simp only [handleMouseMove, hd]
  split
  · exact ⟨rfl, rfl, rfl⟩
  · exact ⟨rfl, rfl, rfl⟩

theorem foldMoves_noSyncDrag_fields (p : TimelineProps)
    (moves : List (ℚ × ℚ × ℚ)) :
    ∀ s : TimelineState, s.isDraggingSync = none →
      (moves.foldl (fun st m => handleMouseMove p st m.1 m.2.1 m.2.2) s).isDraggingSync = none ∧
      (moves.foldl (fun st m => handleMouseMove p st m.1 m.2.1 m.2.2) s).videoOffsetSec = s.videoOffsetSec ∧
      (moves.foldl (fun st m => handleMouseMove p st m.1 m.2.1 m.2.2) s).wclOffsetSec = s.wclOffsetSec := by
  induction moves with
  | nil => exact fun s hd => ⟨hd, rfl, rfl⟩
  | cons m ms ih =>
    intro s hd
    have h1 := handleMouseMove_noSyncDrag_fields p s m.1 m.2.1 m.2.2 hd
    have h2 := ih (handleMouseMove p s m.1 m.2.1 m.2.2) h1.1
    simp only [List.foldl_cons]
    exact ⟨h2.1, h2.2.1.trans h1.2.1, h2.2.2.trans h1.2.2⟩

/-- Claim C3: while the offset model is Locked, a pointer-down never starts an
anchor drag (the anchor hit tests are skipped), and hence no sequence of
subsequent pointer-move events changes the video anchor, the log anchor, or
the derived offset `videoOffsetSec - wclOffsetSec`. -/
theorem lockGate_c3 (p : TimelineProps) (s : TimelineState) (clientX x y : ℚ)
    (moves : List (ℚ × ℚ × ℚ))
    (hl : s.isLocked = true) (hd : s.isDraggingSync = none) :
    (handleMouseDown p s clientX x y).1.isDraggingSync = none ∧
    (moves.foldl (fun st m => handleMouseMove p st m.1 m.2.1 m.2.2)
        (handleMouseDown p s clientX x y).1).videoOffsetSec = s.videoOffsetSec ∧
    (moves.foldl (fun st m => handleMouseMove p st m.1 m.2.1 m.2.2)
        (handleMouseDown p s clientX x y).1).wclOffsetSec = s.wclOffsetSec ∧
    (moves.foldl (fun st m => handleMouseMove p st m.1 m.2.1 m.2.2)
        (handleMouseDown p s clientX x y).1).videoOffsetSec -
      (moves.foldl (fun st m => handleMouseMove p st m.1 m.2.1 m.2.2)
        (handleMouseDown p s clientX x y).1).wclOffsetSec
      = s.videoOffsetSec - s.wclOffsetSec := by
  have h1 := handleMouseDown_locked_fields p s clientX x y hl
  have h2 := foldMoves_noSyncDrag_fields p moves (handleMouseDown p s clientX x y).1
    (h1.1.trans hd)
  refine ⟨h1.1.trans hd, h2.2.1.trans h1.2.1, h2.2.2.trans h1.2.2, ?_⟩
  rw [h2.2.1.trans h1.2.1, h2.2.2.trans h1.2.2]

/-- A locked sample state used by closed witnesses. -/
def lockedState : TimelineState :=
  { sampleState with isLocked := true, autoSynced := true }

theorem lockGate_c3_witness :
    lockedState.isLocked = true ∧ lockedState.isDraggingSync = none ∧
    ((handleMouseDown sampleProps lockedState 7 8 9).1.isDraggingSync = none ∧
     ([((1 : ℚ), (2 : ℚ), (3 : ℚ)), (4, 5, 6)].foldl
        (fun st m => handleMouseMove sampleProps st m.1 m.2.1 m.2.2)
        (handleMouseDown sampleProps lockedState 7 8 9).1).videoOffsetSec
        = lockedState.videoOffsetSec ∧
     ([((1 : ℚ), (2 : ℚ), (3 : ℚ)), (4, 5, 6)].foldl
        (fun st m => handleMouseMove sampleProps st m.1 m.2.1 m.2.2)
        (handleMouseDown sampleProps lockedState 7 8 9).1).wclOffsetSec
        = lockedState.wclOffsetSec ∧
     ([((1 : ℚ), (2 : ℚ), (3 : ℚ)), (4, 5, 6)].foldl
        (fun st m => handleMouseMove sampleProps st m.1 m.2.1 m.2.2)
        (handleMouseDown sampleProps lockedState 7 8 9).1).videoOffsetSec -
       ([((1 : ℚ), (2 : ℚ), (3 : ℚ)), (4, 5, 6)].foldl
        (fun st m => handleMouseMove sampleProps st m.1 m.2.1 m.2.2)
        (handleMouseDown sampleProps lockedState 7 8 9).1).wclOffsetSec
        = lockedState.videoOffsetSec - lockedState.wclOffsetSec) :=
  ⟨rfl, rfl,
    lockGate_c3 sampleProps lockedState 7 8 9 [(1, 2, 3), (4, 5, 6)] rfl rfl⟩

theorem findHitEvent_y_lb (p : TimelineProps) (s : TimelineState) (x y : ℚ)
    (ev : Event) (hfind : findHitEvent p s x y = some ev) : 174 ≤ y := by
  have hp := List.find?_some hfind
  have hq : (x - eventMarkerX s ev) ^ 2 + (y - (eventRowY ev.type + 10)) ^ 2 ≤ 36 := by
    simpa [eventHit] using hp
  have hc : 180 ≤ eventRowY ev.type + 10 := by
    cases h : ev.type <;>
      norm_num [eventRowY, h, PADDING_TOP, SYNC_ROW_HEIGHT, FIGHT_ROW_HEIGHT,
        EVENT_ROW_HEIGHT]
  nlinarith [sq_nonneg (x - eventMarkerX s ev),
    sq_nonneg (y - (eventRowY ev.type + 10) + 6)]

/-- Claim C1 (amended): for every pointer-down within 6px of an event marker
of the selected fight, the seek callback is invoked with the video time
obtained from the event's log time by the convention
`videoTime = logTime - offset`; in particular, clicking an event marker at
log time 305.0s with offset = -10.0s invokes seek with video time 315.0s
(not 295.0s as the claim states). -/
theorem eventSeekMapping_c1 (p : TimelineProps) (s : TimelineState)
    (clientX x y : ℚ) (ev : Event)
    (hsel : p.selectedFightId.isSome) (hne : 0 < p.events.length)
    (hsf : (selectedFight p).isSome)
    (hfind : findHitEvent p s x y = some ev) :
    handleMouseDown p s clientX x y
      = (s, some (.timelineClick (ev.timestamp / 1000 - p.offset))) := by
  have hy : 174 ≤ y := findHitEvent_y_lb p s x y ev hfind
  have hnotv : ¬(s.isLocked = false ∧ videoRowTop ≤ y ∧ y ≤ videoRowBottom ∧
      timeToX s.zoom s.panOffset s.videoOffsetSec ≤ x ∧
      x ≤ timeToX s.zoom s.panOffset s.videoOffsetSec + p.videoDuration * s.zoom) := by
    rintro ⟨-, -, hb, -, -⟩
    rw [show videoRowBottom = 90 by
      norm_num [videoRowBottom, PADDING_TOP, SYNC_ROW_HEIGHT]] at hb
    linarith
  have hnotw : ¬(s.isLocked = false ∧ wclRowTop ≤ y ∧ y ≤ wclRowBottom ∧
      timeToX s.zoom s.panOffset s.wclOffsetSec ≤ x ∧
      x ≤ timeToX s.zoom s.panOffset s.wclOffsetSec + reportDuration p * s.zoom) := by
    rintro ⟨-, -, hb, -, -⟩
    rw [show wclRowBottom = 120 by
      norm_num [wclRowBottom, PADDING_TOP, SYNC_ROW_HEIGHT]] at hb
    linarith
  have hnotf : ¬(fightsRowTop ≤ y ∧ y ≤ fightsRowBottom) := by
    rintro ⟨-, hb⟩
    rw [show fightsRowBottom = 160 by
      norm_num [fightsRowBottom, PADDING_TOP, SYNC_ROW_HEIGHT, FIGHT_ROW_HEIGHT]] at hb
    linarith
  simp only [handleMouseDown]
  rw [if_neg hnotv, if_neg hnotw, if_neg hnotf, if_pos ⟨hsel, hne, hsf⟩, hfind]

/-- The fight used in the concrete seek scenario: spans 300s-330s of the
report. -/
def seekFight : Fight :=
  { id := 1
    name := "Boss"
    startTime := 300000
    endTime := 330000
    kill := true
    iconUrl := none }

/-- The event used in the concrete seek scenario: a death at log time 305s. -/
def seekEvent : Event :=
  { timestamp := 305000
    type := .Deaths
    ability := none }

/-- Props of the concrete seek scenario: the fight is selected, its event
list holds the single death at 305s, and the stored offset is -10s. -/
def seekProps : TimelineProps :=
  { reportStartTime := 0
    reportEndTime := 600000
    fights := [seekFight]
    selectedFightId := some 1
    events := [seekEvent]
    offset := -10
    videoDuration := 600
    videoStartTime := 0 }

/-- State of the concrete seek scenario: zoom 1 px/s, no pan, anchors at 0,
locked after auto-sync, no drag in progress. -/
def seekState : TimelineState :=
  { zoom := 1
    panOffset := 0
    isDragging := false
    dragStartX := 0
    dragStartPanOffset := 0
    hoveredFight := none
    hoveredEvent := none
    videoOffsetSec := 0
    wclOffsetSec := 0
    isLocked := true
    isDraggingSync := none
    autoSynced := true }

theorem findHitEvent_seek :
    findHitEvent seekProps seekState 305 220 = some seekEvent := by
  norm_num [findHitEvent, seekProps, seekEvent, seekState, List.find?, eventHit,
    eventMarkerX, timeToX, eventRowY, PADDING_TOP, SYNC_ROW_HEIGHT, FIGHT_ROW_HEIGHT,
    EVENT_ROW_HEIGHT]

theorem seekScenario_eval :
    handleMouseDown seekProps seekState 0 305 220
      = (seekState, some (Callback.timelineClick 315)) := by
  have hfind := findHitEvent_seek
  norm_num [handleMouseDown, seekProps, seekState, seekEvent, seekFight,
    findClickedFight, selectedFight, List.find?, timeToX, xToTime, reportDuration,
    videoRowTop, videoRowBottom, wclRowTop, wclRowBottom, fightsRowTop,
    fightsRowBottom, PADDING_TOP, SYNC_ROW_HEIGHT, FIGHT_ROW_HEIGHT,
    EVENT_ROW_HEIGHT, hfind, findHitEvent, eventHit, eventMarkerX, eventRowY]

/-- Claim C1 is false as stated: at the concrete scenario of the claim — an
event marker at log time 305.0s, offset = -10.0s, pointer exactly on the
marker (pixel (305, 220), distance 0) — the pointer-down handler fires the
seek callback with video time 315.0s = 305 - (-10), not 295.0s. -/
theorem eventSeekMapping_c1_counterexample :
    (handleMouseDown seekProps seekState 0 305 220).2
        = some (Callback.timelineClick 315) ∧
    (handleMouseDown seekProps seekState 0 305 220).2
        ≠ some (Callback.timelineClick 295) := by
  rw [seekScenario_eval]
  norm_num

theorem eventSeekMapping_c1_witness :
    findHitEvent seekProps seekState 305 220 = some seekEvent ∧
    handleMouseDown seekProps seekState 0 305 220
      = (seekState, some (.timelineClick (seekEvent.timestamp / 1000 - seekProps.offset))) :=
  ⟨findHitEvent_seek,
    eventSeekMapping_c1 seekProps seekState 0 305 220 seekEvent (by decide) (by decide)
      (by decide) findHitEvent_seek⟩

/-- A canvas draw call, recorded with its geometry. -/
inductive DrawCall where
  | fillRect (x y w h : ℚ)
  | strokeRect (x y w h : ℚ)
  | drawImage (x y w h : ℚ)
  | fillText (x y : ℚ)
  | arc (x y r : ℚ)
  deriving DecidableEq

/-- Pixel x of a fight bar, positioned relative to the WCL bar (line 369). -/
def fightBarX (s : TimelineState) (f : Fight) : ℚ :=
  timeToX s.zoom s.panOffset (f.startTime / 1000 + s.wclOffsetSec)

/-- Pixel width of a fight bar (line 370). -/
def fightBarW (s : TimelineState) (f : Fight) : ℚ :=
  (f.endTime / 1000 - f.startTime / 1000) * s.zoom

/-- Draw calls emitted for one fight by the draw routine (lines 364-422):
nothing when the bar is culled (fully outside the visible width, line 375),
otherwise the bar (with a 2px minimum width), its border, the boss icon
backdrop/image/border when an icon URL is present and the image is loaded,
and the name label when the bar is wider than 60px. -/
def drawFight (width : ℚ) (s : TimelineState) (iconLoaded : Bool) (f : Fight) :
    List DrawCall :=
  let x := fightBarX s f
  let w := fightBarW s f
  let y := PADDING_TOP + SYNC_ROW_HEIGHT * 2 + 5
  let h := FIGHT_ROW_HEIGHT - 10
  if x + w < 0 ∨ x > width then []
  else
    [DrawCall.fillRect x y (max w 2) h, DrawCall.strokeRect x y (max w 2) h] ++
    (match f.iconUrl with
      | some _ =>
        if iconLoaded then
          [DrawCall.fillRect (x + 2) (y + 2) (h - 4) (h - 4),
            DrawCall.drawImage (x + 2) (y + 2) (h - 4) (h - 4),
            DrawCall.strokeRect (x + 2) (y + 2) (h - 4) (h - 4)]
        else []
      | none => []) ++
    (if w > 60 then
      [DrawCall.fillText (x + (if f.iconUrl.isSome then (h - 4) + 7 else 5)) (y + h / 2 + 4)]
    else [])

/-- Draw calls emitted for one event marker of the selected fight
(lines 428-451): nothing when its pixel x is outside the visible width
(line 434), otherwise the circular marker and its icon text. -/
def drawEvent (width : ℚ) (s : TimelineState) (ev : Event) : List DrawCall :=
  let x := eventMarkerX s ev
  let y := eventRowY ev.type
  if x < 0 ∨ x > width then []
  else [DrawCall.arc x (y + 10) 4, DrawCall.fillText (x - 6) (y + 5)]

/-- Claim C8: a fight whose rendered pixel interval `[x, x+w]` lies entirely
outside the visible range `[0, width]` produces no draw calls, and an event
marker whose pixel position is outside the visible width is likewise not
drawn. -/
theorem culling_c8 (width : ℚ) (s : TimelineState) (iconLoaded : Bool)
    (f : Fight) (ev : Event)
    (hw : 0 ≤ width) (hz : 0 ≤ s.zoom) (hf : f.startTime ≤ f.endTime)
    (hdisj : Disjoint (Set.Icc (fightBarX s f) (fightBarX s f + fightBarW s f))
      (Set.Icc 0 width))
    (hev : eventMarkerX s ev < 0 ∨ width < eventMarkerX s ev) :
    drawFight width s iconLoaded f = [] ∧ drawEvent width s ev = [] := by
  have hw0 : 0 ≤ fightBarW s f := by
    unfold fightBarW
    apply mul_nonneg _ hz
    linarith
  have hcull : fightBarX s f + fightBarW s f < 0 ∨ width < fightBarX s f := by
    by_contra hcon
    push_neg at hcon
    obtain ⟨hA, hB⟩ := hcon
    refine Set.not_disjoint_iff.mpr ⟨max (fightBarX s f) 0, ?_, ?_⟩ hdisj
    · exact Set.mem_Icc.mpr ⟨le_max_left _ _, max_le (by linarith) hA⟩
    · exact Set.mem_Icc.mpr ⟨le_max_right _ _, max_le hB hw⟩
  constructor
  · simp only [drawFight]
    rw [if_pos hcull]
  · simp only [drawEvent]
    rw [if_pos hev]

/-- A fight rendered entirely to the right of a 100px viewport at the sample
view state: bar interval [200px, 260px]. -/
def cullFight : Fight :=
  { id := 2
    name := "Far"
    startTime := 200000
    endTime := 260000
    kill := false
    iconUrl := none }

/-- An event rendered left of pixel 0 at the sample view state. -/
def cullEvent : Event :=
  { timestamp := -5000
    type := .Casts
    ability := none }

theorem culling_c8_witness :
    drawFight 100 sampleState false cullFight = [] ∧
    drawEvent 100 sampleState cullEvent = [] :=
  culling_c8 100 sampleState false cullFight cullEvent (by norm_num)
    (by norm_num [sampleState]) (by norm_num [cullFight])
    (by
      have hx : fightBarX sampleState cullFight = 200 := by
        norm_num [fightBarX, sampleState, cullFight, timeToX]
      have hwf : fightBarW sampleState cullFight = 60 := by
        norm_num [fightBarW, sampleState, cullFight]
      rw [hx, hwf, Set.disjoint_left]
      rintro a ha hb
      rw [Set.mem_Icc] at ha hb
      have h1 : (200 : ℚ) ≤ a := by norm_num at ha; linarith [ha.1]
      linarith [hb.2])
    (by
      left
      norm_num [eventMarkerX, sampleState, cullEvent, timeToX])

end SuperTimeline

namespace TimelineAligner

/-- A JavaScript number: either a finite value (modelled exactly as a
rational) or one of the non-finite values `NaN`, `Infinity`, `-Infinity`.
The distinction is needed because the component guards on `isFinite`. -/
inductive JsNum where
  | finite (q : ℚ)
  | nan
  | inf
  | negInf
  deriving DecidableEq

/-- JavaScript `isFinite`. -/
def JsNum.isFinite : JsNum → Bool
  | .finite _ => true
  | _ => false

/-- JavaScript comparison `x <= 0`: false for `NaN` and `Infinity`, true for
`-Infinity`. -/
def JsNum.leZero : JsNum → Bool
  | .finite q => decide (q ≤ 0)
  | .nan => false
  | .inf => false
  | .negInf => true

/-- Division by 1000 (`wclDuration / 1000`, line 16): preserves the
non-finite values, scales finite ones. -/
def JsNum.div1000 : JsNum → JsNum
  | .finite q => .finite (q / 1000)
  | n => n

/-- The finite value of a `JsNum` (defined only after the finiteness guard
has passed). -/
def JsNum.toRat : JsNum → ℚ
  | .finite q => q
  | _ => 0

/-- A duration that is zero, negative, or non-finite. -/
def JsNum.degenerate (d : JsNum) : Prop :=
  d = .nan ∨ d = .inf ∨ d = .negInf ∨ ∃ q, d = .finite q ∧ q ≤ 0

/-- Rendered output of the aligner: either the safe placeholder markup or the
two bars with their pixel geometry. -/
inductive AlignerOutput where
  | placeholder
  | bars (wclBarWidth videoBarWidth wclLeft videoLeft : ℚ)
  deriving DecidableEq

/-- Container width in pixels (line 41). -/
def containerWidth : ℚ := 800

/-- Render function of `TimelineAligner`
(`src/frontend/src/components/TimelineAligner.tsx`): `wclDuration` is in
milliseconds, `videoDuration` in seconds, the two offsets are the current bar
positions in pixels.  The validation guard of lines 127-138 returns the
placeholder before any bar geometry (lines 40-42 and 124-125) is used in the
markup, so no division by zero or NaN reaches the rendered output. -/
def render (wclDuration videoDuration : JsNum) (wclOffset videoOffset : ℚ) :
    AlignerOutput :=
  let wclDurationSec := wclDuration.div1000
  let videoDurationSec := videoDuration
  if wclDurationSec.isFinite = false ∨ wclDurationSec.leZero = true ∨
      videoDurationSec.isFinite = false ∨ videoDurationSec.leZero = true then
    .placeholder
  else
    let wq := wclDurationSec.toRat
    let vq := videoDurationSec.toRat
    let maxDuration := max wq vq
    let pixelsPerSecond := containerWidth / maxDuration
    .bars (wq * pixelsPerSecond) (vq * pixelsPerSecond) wclOffset videoOffset

/-- Claim C9: whenever either duration is zero, negative, or non-finite, the
aligner renders the safe placeholder instead of performing the pixel math. -/
theorem degenerateGuard_c9 (w v : JsNum) (wclOffset videoOffset : ℚ)
    (h : w.degenerate ∨ v.degenerate) :
    render w v wclOffset videoOffset = .placeholder := by
  have hcond : w.div1000.isFinite = false ∨ w.div1000.leZero = true ∨
      v.isFinite = false ∨ v.leZero = true := by
    rcases h with hw | hv
    · rcases hw with h | h | h | ⟨q, hq, hle⟩
      · subst h; left; rfl
      · subst h; left; rfl
      · subst h; left; rfl
      · subst hq
        right; left
        simp only [JsNum.div1000, JsNum.leZero]
        rw [decide_eq_true_eq]
        linarith
    · rcases hv with h | h | h | ⟨q, hq, hle⟩
      · subst h; right; right; left; rfl
      · subst h; right; right; left; rfl
      · subst h; right; right; left; rfl
      · subst hq
        right; right; right
        simp only [JsNum.leZero]
        rw [decide_eq_true_eq]
        exact hle
  simp only [render]
  rw [if_pos hcond]

theorem degenerateGuard_c9_witness :
    render (.finite 0) (.finite 10) 5 7 = .placeholder :=
  degenerateGuard_c9 (.finite 0) (.finite 10) 5 7
    (Or.inl (Or.inr (Or.inr (Or.inr ⟨0, rfl, le_refl 0⟩))))

end TimelineAligner
